import Mathlib

/-!
Shallow embedding of the moviedb repository (Go), for checking its
natural-language specification.

Source files embedded:
- `internal/data/movie_model.go` (given unnamed): `MovieModel` with
  `Insert`, `Get`, `Update`, `Delete`, and the no-op `MockMovieModel`.
- `internal/data/model.go`: `ErrRecordNotFound`, the `Model` interface and
  the `NewModel` / `NewMockModel` constructors.
- `cmd/api/movie.go`: the HTTP handlers `createMovieHandler`,
  `showMovieHandler`, `updateMovieHandler`, `deleteMovieHandler`,
  `listMoviesHandler`.

The database is modelled as a list of rows plus an id counter and a clock;
an optional `fault` argument stands for a driver or connectivity failure
(an opaque error with a numeric code), which in Go surfaces as a non-nil
`error` distinct from `sql.ErrNoRows`.
-/

set_option autoImplicit false

namespace MovieDB

/-- The `data.Movie` struct: ID, CreatedAt (timestamp, abstracted to an
integer), Title, Year, Runtime, Genres, Version. -/
structure Movie where
  ID : Int
  CreatedAt : Int
  Title : String
  Year : Int
  Runtime : Int
  Genres : List String
  Version : Int
deriving DecidableEq, Repr

/-- Errors a store operation can return: `ErrRecordNotFound` and
`ErrEditConflict` are the two distinguished sentinel errors; `db c` is any
other (opaque) error coming back from the database driver, which is
returned unchanged by the model's `default:` switch branches. -/
inductive ModelErr where
  | recordNotFound
  | editConflict
  | db (code : Nat)
deriving DecidableEq, Repr

/-- The movie table: a list of rows. -/
abbrev Table := List Movie

/-- The database state: the movie table, the next auto-assigned primary
key, and the clock used for `created_at`. -/
structure Db where
  table : Table
  nextId : Int
  now : Int
deriving Repr

/-- Semantics of the SQL statement in `MovieModel.Update`:
`UPDATE movie SET title=$1, year=$2, runtime=$3, genres=$4,
version = version + 1 WHERE id = $5 AND version = $6 RETURNING version`.
Returns the updated table and the list of RETURNING values (the new
version of each affected row, in table order). -/
def sqlUpdateRows (title : String) (year runtime : Int) (genres : List String)
    (id version : Int) : Table → Table × List Int
  | [] => ([], [])
  | r :: rs =>
    let rest := sqlUpdateRows title year runtime genres id version rs
    if r.ID = id ∧ r.Version = version then
      ({ r with Title := title, Year := year, Runtime := runtime,
                Genres := genres, Version := r.Version + 1 } :: rest.1,
       (r.Version + 1) :: rest.2)
    else
      (r :: rest.1, rest.2)

/-- Semantics of the SQL statement in `MovieModel.Insert`:
`INSERT INTO movie (title, year, runtime, genres) VALUES ($1,$2,$3,$4)
RETURNING id, created_at, version`.  Modelled from the spec for the parts
the schema decides (the migration is not under src/): the table assigns
`id` (auto primary key), `created_at` (timestamp) and `version` with
default 1 (spec section 6).  Returns the new database state and the
RETURNING triple (id, created_at, version). -/
def sqlInsertRow (title : String) (year runtime : Int) (genres : List String)
    (db : Db) : Db × (Int × Int × Int) :=
  let row : Movie :=
    { ID := db.nextId, CreatedAt := db.now, Title := title, Year := year,
      Runtime := runtime, Genres := genres, Version := 1 }
  ({ table := db.table ++ [row], nextId := db.nextId + 1, now := db.now },
   (db.nextId, db.now, 1))

/-- Semantics of `DELETE FROM movie WHERE id = $1;` via `ExecContext`:
returns the new table and the number of rows affected. -/
def sqlDeleteRows (id : Int) (t : Table) : Table × Nat :=
  (t.filter (fun r => !(r.ID == id)), t.countP (fun r => r.ID == id))

/-- The `MovieModel` struct: a database handle and the per-operation
context timeout (`time.Duration`, nanoseconds). -/
structure MovieModel where
  DB : Nat
  ContextTimeout : Int
deriving DecidableEq, Repr

/-- `MovieModel.Insert`: runs the INSERT and scans
`id, created_at, version` back into `movie.ID`, `movie.CreatedAt`,
`movie.Version`.  A driver fault is returned unchanged.  Returns the new
database state, the (possibly mutated) in-memory movie, and the error
result. -/
def MovieModel.Insert (fault : Option Nat) (db : Db) (movie : Movie) :
    Db × Movie × Except ModelErr Unit :=
  match fault with
  | some c => (db, movie, .error (.db c))
  | none =>
    let res := sqlInsertRow movie.Title movie.Year movie.Runtime movie.Genres db
    (res.1,
     { movie with ID := res.2.1, CreatedAt := res.2.2.1, Version := res.2.2.2 },
     .ok ())

/-- `MovieModel.Get`: `id < 1` is rejected as `ErrRecordNotFound` before
any query; otherwise `QueryRowContext` selects by primary key, and
`sql.ErrNoRows` is translated to `ErrRecordNotFound` while any other
error is returned unchanged.  The boolean records whether a database
query was executed. -/
def MovieModel.Get (fault : Option Nat) (db : Db) (id : Int) :
    Except ModelErr Movie × Bool :=
  if id < 1 then
    (.error .recordNotFound, false)
  else
    match fault with
    | some c => (.error (.db c), true)
    | none =>
      match db.table.find? (fun r => r.ID == id) with
      | some r => (.ok r, true)
      | none => (.error .recordNotFound, true)

/-- `MovieModel.Update`: runs the conditional UPDATE; `QueryRowContext
... .Scan(&movie.Version)` receiving no row (`sql.ErrNoRows`) becomes
`ErrEditConflict`, any other error is returned unchanged, and on success
the RETURNING version is written back into `movie.Version` (no other
field of the in-memory record is touched). -/
def MovieModel.Update (fault : Option Nat) (t : Table) (movie : Movie) :
    Table × Movie × Except ModelErr Unit :=
  match fault with
  | some c => (t, movie, .error (.db c))
  | none =>
    let res := sqlUpdateRows movie.Title movie.Year movie.Runtime
        movie.Genres movie.ID movie.Version t
    match res.2 with
    | [] => (res.1, movie, .error .editConflict)
    | v :: _ => (res.1, { movie with Version := v }, .ok ())

/-- `MovieModel.Delete`: `id < 1` is rejected as `ErrRecordNotFound`
before any query; otherwise the DELETE runs and zero affected rows yields
`ErrRecordNotFound`.  The boolean records whether a query was executed. -/
def MovieModel.Delete (fault : Option Nat) (db : Db) (id : Int) :
    Db × Except ModelErr Unit × Bool :=
  if id < 1 then
    (db, .error .recordNotFound, false)
  else
    match fault with
    | some c => (db, .error (.db c), true)
    | none =>
      let res := sqlDeleteRows id db.table
      if res.2 = 0 then
        ({ db with table := res.1 }, .error .recordNotFound, true)
      else
        ({ db with table := res.1 }, .ok (), true)

/-- `NewModel` from `internal/data/model.go`: returns
`Model{Movie: MovieModel{DB: db}}`.  Only the `DB` field is set, so
`ContextTimeout` keeps Go's zero value for `time.Duration`, which is 0. -/
def NewModel (db : Nat) : MovieModel :=
  { DB := db, ContextTimeout := 0 }

/-- The deadline duration each operation passes to
`context.WithTimeout(context.Background(), m.ContextTimeout)`. -/
def MovieModel.opTimeout (m : MovieModel) : Int :=
  m.ContextTimeout

/-- Methods declared by the `Movie` interface inside `Model` in
`internal/data/model.go` (lines 12-19). -/
def modelMovieInterfaceMethods : List String :=
  ["Insert", "Get", "Update", "Delete"]

/-- Methods the SQL-backed `MovieModel` defines in the model source file. -/
def movieModelMethods : List String :=
  ["Insert", "Get", "Update", "Delete"]

/-- Methods the no-op `MockMovieModel` defines (lines 129-145 of the model
source file). -/
def mockMovieModelMethods : List String :=
  ["Insert", "Get", "Update", "Delete"]

/-- The store method `listMoviesHandler` invokes on `app.model.Movie`
(`cmd/api/movie.go` line 198). -/
def listMoviesHandlerStoreCall : String := "GetAll"

/-- The five store operations the specification names for the capability
interface. -/
def specStoreOperations : List String :=
  ["Insert", "Get", "Update", "Delete", "GetAll"]

/-- Go's digit alphabet for `strconv.FormatInt`:
"0123456789abcdefghijklmnopqrstuvwxyz". -/
def goDigitChar (d : Nat) : Char :=
  "0123456789abcdefghijklmnopqrstuvwxyz".toList.getD d '?'

/-- Digits of `n` in the given base, most significant first (fuel-indexed
structural recursion; the fuel `n` always suffices). -/
def goFormatNatAux (base : Nat) : Nat → Nat → List Char → List Char
  | 0, _, acc => acc
  | _ + 1, 0, acc => acc
  | fuel + 1, n, acc =>
    goFormatNatAux base fuel (n / base) (goDigitChar (n % base) :: acc)

/-- `strconv.FormatInt(n, base)` for the bases the program uses. -/
def goFormatInt (n : Int) (base : Nat) : String :=
  if n = 0 then "0"
  else if n < 0 then
    String.mk ('-' :: goFormatNatAux base (-n).toNat (-n).toNat [])
  else
    String.mk (goFormatNatAux base n.toNat n.toNat [])

/-- The decimal representation of an integer (what the spec says the
version comparison should use). -/
def decimalRepr (n : Int) : String :=
  goFormatInt n 10

/-- The `Input` struct of `cmd/api/movie.go`: pointer fields decode JSON
`null`/absent as `nil` (here `none`); `Genres` is a slice, whose nil
value is also modelled as `none`. -/
structure Input where
  Title : Option String
  Year : Option Int
  Runtime : Option Int
  Genres : Option (List String)
deriving DecidableEq, Repr

/-- Modelled from the spec (section 4.2): `data.ValidateMovie` is not under
src/ (only its callers are).  Asserts: title non-empty and at most 500
characters; year non-zero, at least 1888, at most the current year;
runtime positive; genres non-empty, no duplicates, at most 5.  Returns
whether the validator is left valid (no recorded failure). -/
def ValidateMovie (currentYear : Int) (m : Movie) : Bool :=
  decide (m.Title ≠ "" ∧ m.Title.length ≤ 500 ∧
    m.Year ≠ 0 ∧ 1888 ≤ m.Year ∧ m.Year ≤ currentYear ∧
    0 < m.Runtime ∧
    m.Genres ≠ [] ∧ m.Genres.Nodup ∧ m.Genres.length ≤ 5)

/-- Modelled from the spec (sections 4.5 and 6): `copyProperties` is not
under src/; the PATCH endpoint is a partial update, so each field of the
request body that was supplied (non-nil pointer / non-nil slice) replaces
the corresponding movie field, and absent fields leave the movie
unchanged. -/
def copyProperties (input : Input) (m : Movie) : Movie :=
  { m with
    Title := input.Title.getD m.Title,
    Year := input.Year.getD m.Year,
    Runtime := input.Runtime.getD m.Runtime,
    Genres := input.Genres.getD m.Genres }

/-- The `data.Filter` struct: page, page size, sort value and the
configured allow-list of sortable values.  (The Go field `Sort` is named
`SortValue` here because `Sort` is a Lean keyword.) -/
structure Filter where
  Page : Int
  PageSize : Int
  SortValue : String
  SortSafeList : List String
deriving DecidableEq, Repr

/-- Modelled from the spec (sections 4.3 and 8): `data.ValidateFilter` is
not under src/ (only its caller `listMoviesHandler` is).  Accepts the
filter when the page is at least 1 and at most 10,000,000, the page size
is between 1 and 100, and the sort value is a member of the configured
allow-list; otherwise a validation error is recorded. -/
def ValidateFilter (f : Filter) : Bool :=
  decide (1 ≤ f.Page ∧ f.Page ≤ 10000000 ∧
    1 ≤ f.PageSize ∧ f.PageSize ≤ 100 ∧
    f.SortValue ∈ f.SortSafeList)

/-- The sort allow-list `listMoviesHandler` configures
(`cmd/api/movie.go` line 191). -/
def movieSortSafeList : List String :=
  ["id", "title", "year", "runtime", "-id", "-title", "-year", "-runtime"]

/-- The responses the handlers can write, by status code. -/
inductive Response where
  | ok200
  | created201
  | badRequest400
  | notFound404
  | conflict409
  | unprocessable422
  | serverError500
deriving DecidableEq, Repr

/-- Outcome of a handler invocation: the responses it wrote (in order),
or a runtime fault (nil-pointer dereference panic). -/
inductive HandlerOutcome where
  | responses (rs : List Response)
  | nilPanic
deriving DecidableEq, Repr

/-- The `data.Movie` literal `createMovieHandler` builds from the decoded
input (id, timestamp and version not yet assigned). -/
def buildCreateMovie (title : String) (year runtime : Int)
    (genres : Option (List String)) : Movie :=
  { ID := 0, CreatedAt := 0, Title := title, Year := year,
    Runtime := runtime, Genres := genres.getD [], Version := 0 }

/-- `createMovieHandler`: decode the body into `Input`; on decode error
write a bad-request response and return.  Otherwise build the
`data.Movie` by dereferencing `*input.Title`, `*input.Year`,
`*input.Runtime` — a nil pointer here faults.  Then validate (422 on
failure), call `Insert` (500 on any error), and write 201. -/
def createMovieHandler (decodeOk : Bool) (input : Input) (currentYear : Int)
    (insertRes : Except ModelErr Unit) : HandlerOutcome :=
  if !decodeOk then
    .responses [.badRequest400]
  else
    match input.Title, input.Year, input.Runtime with
    | some title, some year, some runtime =>
      let movie : Movie := buildCreateMovie title year runtime input.Genres
      if !ValidateMovie currentYear movie then
        .responses [.unprocessable422]
      else
        match insertRes with
        | .error _ => .responses [.serverError500]
        | .ok _ => .responses [.created201]
    | _, _, _ => .nilPanic

/-- `showMovieHandler`: 404 on a bad id parameter; fetch by id, mapping
`ErrRecordNotFound` to 404 and any other error to 500; else write 200. -/
def showMovieHandler (idParam : Option Int) (getRes : Except ModelErr Movie) :
    List Response :=
  match idParam with
  | none => [.notFound404]
  | some _ =>
    match getRes with
    | .error .recordNotFound => [.notFound404]
    | .error _ => [.serverError500]
    | .ok _ => [.ok200]

/-- `deleteMovieHandler`: 404 on a bad id parameter; call `Delete`,
mapping `ErrRecordNotFound` to 404 and any other error to 500; else write
200 with a deletion message. -/
def deleteMovieHandler (idParam : Option Int) (deleteRes : Except ModelErr Unit) :
    List Response :=
  match idParam with
  | none => [.notFound404]
  | some _ =>
    match deleteRes with
    | .error .recordNotFound => [.notFound404]
    | .error _ => [.serverError500]
    | .ok _ => [.ok200]

/-- Abstracted collaborator results for one `updateMovieHandler` request:
the parsed id, the store `Get` result, the `X-Expected-Version` header
(`""` when absent, as `Header.Get` returns), the JSON decode result (its
success flag and the resulting `Input` value), the current year used by
validation, and the store `Update` result (the new version on success). -/
structure UpdateEnv where
  idParam : Option Int
  getRes : Except ModelErr Movie
  header : String
  decodeOk : Bool
  input : Input
  currentYear : Int
  updateRes : Except ModelErr Int
deriving Repr

/-- `updateMovieHandler`, exactly as the source flows: 404 on a bad id;
fetch (404/500 on error); if the `X-Expected-Version` header is non-empty
and differs from `strconv.FormatInt(int64(movie.Version), 32)`, write 409
and return; decode the body — on error write a bad-request response but
(as in the source, which lacks a `return` there) CONTINUE;
`copyProperties` the input onto the movie; validate (422 on failure);
call `Update` (409 on `ErrEditConflict`, 500 on any other error); write
200.  Returns the responses written in order, whether the store's
`Update` was called, and the final in-memory movie record (`none` before
one is fetched). -/
def updateMovieHandler (e : UpdateEnv) : List Response × Bool × Option Movie :=
  match e.idParam with
  | none => ([.notFound404], false, none)
  | some _ =>
    match e.getRes with
    | .error .recordNotFound => ([.notFound404], false, none)
    | .error _ => ([.serverError500], false, none)
    | .ok movie =>
      if e.header ≠ "" ∧ e.header ≠ goFormatInt movie.Version 32 then
        ([.conflict409], false, some movie)
      else
        let pre : List Response :=
          if e.decodeOk then [] else [.badRequest400]
        let movie1 := copyProperties e.input movie
        if !ValidateMovie e.currentYear movie1 then
          (pre ++ [.unprocessable422], false, some movie1)
        else
          match e.updateRes with
          | .error .editConflict => (pre ++ [.conflict409], true, some movie1)
          | .error _ => (pre ++ [.serverError500], true, some movie1)
          | .ok v => (pre ++ [.ok200], true, some { movie1 with Version := v })

/-- `listMoviesHandler` flow up to the store call: validate the filter
(422 on failure), call `GetAll` (500 on error), write 200. -/
def listMoviesHandler (f : Filter) (getAllRes : Except ModelErr Unit) :
    List Response :=
  if !ValidateFilter f then
    [.unprocessable422]
  else
    match getAllRes with
    | .error _ => [.serverError500]
    | .ok _ => [.ok200]

/-- A concrete movie used to instantiate theorems with hypotheses. -/
def sampleMovie : Movie :=
  { ID := 1, CreatedAt := 0, Title := "Casablanca", Year := 1942,
    Runtime := 102, Genres := ["drama", "romance"], Version := 1 }

/-- A concrete database state holding `sampleMovie`. -/
def sampleDb : Db :=
  { table := [sampleMovie], nextId := 2, now := 7 }

/-- An `Input` with every field absent (what decoding an empty or
unparseable body leaves behind). -/
def emptyInput : Input :=
  { Title := none, Year := none, Runtime := none, Genres := none }

/-- A concrete not-yet-inserted movie record (id, timestamp and version
still zero, as after `createMovieHandler` builds it). -/
def freshMovie : Movie :=
  { ID := 0, CreatedAt := 0, Title := "Dune", Year := 2021,
    Runtime := 155, Genres := ["scifi"], Version := 0 }

end MovieDB

namespace MovieDB

/-! ## Helper lemmas about the SQL-statement semantics -/

theorem sqlUpdateRows_snd_nil_iff (title : String) (y rt : Int)
    (g : List String) (id ver : Int) (t : Table) :
    (sqlUpdateRows title y rt g id ver t).2 = [] ↔
      ∀ r ∈ t, ¬(r.ID = id ∧ r.Version = ver) := by
  induction t with
  | nil => simp [sqlUpdateRows]
  | cons r rs ih =>
    by_cases hc : r.ID = id ∧ r.Version = ver
    · simp [sqlUpdateRows, hc]
    · simp [sqlUpdateRows, hc, ih]
      exact fun _ h1 h2 => hc ⟨h1, h2⟩

theorem sqlUpdateRows_snd_mem (title : String) (y rt : Int)
    (g : List String) (id ver : Int) (t : Table) (v : Int) :
    v ∈ (sqlUpdateRows title y rt g id ver t).2 → v = ver + 1 := by
  induction t with
  | nil => simp [sqlUpdateRows]
  | cons r rs ih =>
    by_cases hc : r.ID = id ∧ r.Version = ver
    · simp only [sqlUpdateRows, if_pos hc, List.mem_cons]
      intro hv
      rcases hv with hv | hv
      · rw [hv, hc.2]
      · exact ih hv
    · simp only [sqlUpdateRows, if_neg hc]
      exact ih

theorem sqlUpdateRows_fst_map (title : String) (y rt : Int)
    (g : List String) (id ver : Int) (t : Table) :
    (sqlUpdateRows title y rt g id ver t).1 =
      t.map (fun r =>
        if r.ID = id ∧ r.Version = ver then
          { r with Title := title, Year := y, Runtime := rt,
                   Genres := g, Version := r.Version + 1 }
        else r) := by
  induction t with
  | nil => simp [sqlUpdateRows]
  | cons r rs ih =>
    by_cases hc : r.ID = id ∧ r.Version = ver
    · simp [sqlUpdateRows, hc, ih]
    · simp [sqlUpdateRows, hc, ih]

/-! ## Claim theorems -/

/-- C1: `Update` fails with the Edit-Conflict error exactly when the
conditional UPDATE (matching both the record's id and the supplied
in-memory version) returns zero rows — equivalently, when no stored row
has both that id and that version — so a stale version never silently
succeeds; any other database failure is returned as an opaque
non-Edit-Conflict error. -/
theorem update_conflict_iff_zero_rows :
    (∀ (t : Table) (m : Movie),
      (MovieModel.Update none t m).2.2 = Except.error ModelErr.editConflict ↔
        (sqlUpdateRows m.Title m.Year m.Runtime m.Genres m.ID m.Version t).2 = [])
    ∧ (∀ (t : Table) (m : Movie),
      (sqlUpdateRows m.Title m.Year m.Runtime m.Genres m.ID m.Version t).2 = [] ↔
        ∀ r ∈ t, ¬(r.ID = m.ID ∧ r.Version = m.Version))
    ∧ (∀ (t : Table) (m : Movie),
      (MovieModel.Update none t m).2.2 = Except.ok () ↔
        ¬(sqlUpdateRows m.Title m.Year m.Runtime m.Genres m.ID m.Version t).2 = [])
    ∧ (∀ (c : Nat) (t : Table) (m : Movie),
      (MovieModel.Update (some c) t m).2.2 = Except.error (ModelErr.db c)
        ∧ ModelErr.db c ≠ ModelErr.editConflict) := by
  refine ⟨?_, ?_, ?_, ?_⟩
  · intro t m
    cases h : (sqlUpdateRows m.Title m.Year m.Runtime m.Genres m.ID m.Version t).2 with
    | nil => simp [MovieModel.Update, h]
    | cons v vs => simp [MovieModel.Update, h]
  · intro t m
    exact sqlUpdateRows_snd_nil_iff m.Title m.Year m.Runtime m.Genres m.ID m.Version t
  · intro t m
    cases h : (sqlUpdateRows m.Title m.Year m.Runtime m.Genres m.ID m.Version t).2 with
    | nil => simp [MovieModel.Update, h]
    | cons v vs => simp [MovieModel.Update, h]
  · intro c t m
    exact ⟨rfl, by simp⟩

/-- C1 witness: on a one-row table whose stored version is 1, updating
with stale version 9 yields the Edit-Conflict error. -/
theorem update_conflict_iff_zero_rows_witness :
    (MovieModel.Update none [sampleMovie] { sampleMovie with Version := 9 }).2.2
      = Except.error ModelErr.editConflict :=
  (update_conflict_iff_zero_rows.1 [sampleMovie]
    { sampleMovie with Version := 9 }).mpr (by decide)

/-- C3: `Insert` assigns version 1 (and succeeds) for every database
state and movie; when a stored row matches the supplied id and version, a
successful `Update` writes back exactly the incremented version into the
caller's in-memory record (touching no other field) and succeeds; and the
stored table after `Update` is the original with every matching row's
version incremented by exactly 1 (and its fields replaced). -/
theorem version_starts_at_one_and_increments :
    (∀ (db : Db) (m : Movie),
      (MovieModel.Insert none db m).2.1.Version = 1
        ∧ (MovieModel.Insert none db m).2.2 = Except.ok ())
    ∧ (∀ (t : Table) (m r : Movie), r ∈ t → r.ID = m.ID → r.Version = m.Version →
      (MovieModel.Update none t m).2.1 = { m with Version := m.Version + 1 }
        ∧ (MovieModel.Update none t m).2.2 = Except.ok ())
    ∧ (∀ (t : Table) (m : Movie),
      (MovieModel.Update none t m).1 =
        t.map (fun r =>
          if r.ID = m.ID ∧ r.Version = m.Version then
            { r with Title := m.Title, Year := m.Year, Runtime := m.Runtime,
                     Genres := m.Genres, Version := r.Version + 1 }
          else r)) := by
  refine ⟨?_, ?_, ?_⟩
  · intro db m
    exact ⟨rfl, rfl⟩
  · intro t m r hmem hid hver
    cases h : (sqlUpdateRows m.Title m.Year m.Runtime m.Genres m.ID m.Version t).2 with
    | nil =>
      exact absurd
        (((sqlUpdateRows_snd_nil_iff m.Title m.Year m.Runtime m.Genres
            m.ID m.Version t).mp h) r hmem)
        (by exact fun hn => hn ⟨hid, hver⟩)
    | cons v vs =>
      have hv : v = m.Version + 1 :=
        sqlUpdateRows_snd_mem m.Title m.Year m.Runtime m.Genres m.ID m.Version t v
          (h ▸ List.mem_cons_self v vs)
      constructor
      · simp [MovieModel.Update, h, hv]
      · simp [MovieModel.Update, h]
  · intro t m
    have hmap := sqlUpdateRows_fst_map m.Title m.Year m.Runtime m.Genres m.ID m.Version t
    cases h : (sqlUpdateRows m.Title m.Year m.Runtime m.Genres m.ID m.Version t).2 with
    | nil => simpa [MovieModel.Update, h] using hmap
    | cons v vs => simpa [MovieModel.Update, h] using hmap

/-- C3 witness: inserting a fresh record yields version 1, and updating
the sample one-row database with the matching version 1 writes back
version 2 while leaving every other in-memory field unchanged. -/
theorem version_starts_at_one_and_increments_witness :
    (MovieModel.Insert none sampleDb freshMovie).2.1.Version = 1
    ∧ (MovieModel.Update none [sampleMovie] sampleMovie).2.1 =
        { sampleMovie with Version := sampleMovie.Version + 1 } :=
  ⟨(version_starts_at_one_and_increments.1 sampleDb freshMovie).1,
   (version_starts_at_one_and_increments.2.1 [sampleMovie] sampleMovie sampleMovie
      (by decide) rfl rfl).1⟩

/-- C4: `Get` and `Delete` reject `id < 1` as Not-Found without executing
any query (for every database state and every fault); for `id ≥ 1`, `Get`
returns Not-Found exactly when no row has that id and otherwise returns
the stored record, `Delete` returns Not-Found exactly when zero rows are
affected (equivalently, no row has that id) and otherwise succeeds, and a
driver fault surfaces as an opaque error distinct from Not-Found. -/
theorem get_delete_not_found :
    (∀ (fault : Option Nat) (db : Db) (id : Int), id < 1 →
      MovieModel.Get fault db id = (Except.error ModelErr.recordNotFound, false)
        ∧ MovieModel.Delete fault db id = (db, Except.error ModelErr.recordNotFound, false))
    ∧ (∀ (db : Db) (id : Int), 1 ≤ id →
      ((MovieModel.Get none db id).1 = Except.error ModelErr.recordNotFound ↔
          db.table.find? (fun r => r.ID == id) = none)
        ∧ (∀ r, db.table.find? (fun r => r.ID == id) = some r →
            MovieModel.Get none db id = (Except.ok r, true)))
    ∧ (∀ (db : Db) (id : Int),
      db.table.find? (fun r => r.ID == id) = none ↔ ∀ r ∈ db.table, r.ID ≠ id)
    ∧ (∀ (db : Db) (id : Int), 1 ≤ id →
      ((MovieModel.Delete none db id).2.1 = Except.error ModelErr.recordNotFound ↔
          (sqlDeleteRows id db.table).2 = 0)
        ∧ ((sqlDeleteRows id db.table).2 ≠ 0 →
            (MovieModel.Delete none db id).2.1 = Except.ok ()))
    ∧ (∀ (id : Int) (t : Table),
      (sqlDeleteRows id t).2 = 0 ↔ ∀ r ∈ t, r.ID ≠ id)
    ∧ (∀ (c : Nat) (db : Db) (id : Int), 1 ≤ id →
      (MovieModel.Get (some c) db id).1 = Except.error (ModelErr.db c)
        ∧ ModelErr.db c ≠ ModelErr.recordNotFound) := by
  refine ⟨?_, ?_, ?_, ?_, ?_, ?_⟩
  · intro fault db id hlt
    exact ⟨by simp [MovieModel.Get, hlt], by simp [MovieModel.Delete, hlt]⟩
  · intro db id hge
    have hnlt : ¬ id < 1 := not_lt.mpr hge
    constructor
    · cases hf : db.table.find? (fun r => r.ID == id) with
      | none => simp [MovieModel.Get, hnlt, hf]
      | some r => simp [MovieModel.Get, hnlt, hf]
    · intro r hf
      simp [MovieModel.Get, hnlt, hf]
  · intro db id
    simp [List.find?_eq_none]
  · intro db id hge
    have hnlt : ¬ id < 1 := not_lt.mpr hge
    constructor
    · by_cases hz : (sqlDeleteRows id db.table).2 = 0
      · simp [MovieModel.Delete, hnlt, hz]
      · simp [MovieModel.Delete, hnlt, hz]
    · intro hz
      simp [MovieModel.Delete, hnlt, hz]
  · intro id t
    simp [sqlDeleteRows, List.countP_eq_zero]
  · intro c db id hge
    have hnlt : ¬ id < 1 := not_lt.mpr hge
    exact ⟨by simp [MovieModel.Get, hnlt], by simp⟩

/-- C4 witness: on the sample database, `Get 0` is Not-Found without a
query, `Get 1` returns the stored record, and `Delete 3` (no such row) is
Not-Found. -/
theorem get_delete_not_found_witness :
    MovieModel.Get none sampleDb 0 = (Except.error ModelErr.recordNotFound, false)
    ∧ MovieModel.Get none sampleDb 1 = (Except.ok sampleMovie, true)
    ∧ (MovieModel.Delete none sampleDb 3).2.1 = Except.error ModelErr.recordNotFound :=
  ⟨(get_delete_not_found.1 none sampleDb 0 (by decide)).1,
   (get_delete_not_found.2.1 sampleDb 1 (by decide)).2 sampleMovie (by decide),
   (get_delete_not_found.2.2.2.1 sampleDb 3 (by decide)).1.mpr (by decide)⟩

/-- C5: each handler maps the error it encounters to exactly one status
class — the store Not-Found error to 404, the Edit-Conflict error to 409,
a validation failure to 422, and any other store failure to 500 — and in
every such case the written responses contain no success status. -/
theorem handlers_map_errors_to_status :
    (∀ i : Int, showMovieHandler (some i) (Except.error ModelErr.recordNotFound)
        = [Response.notFound404])
    ∧ (∀ (i : Int) (e : ModelErr), e ≠ ModelErr.recordNotFound →
        showMovieHandler (some i) (Except.error e) = [Response.serverError500])
    ∧ (∀ (i : Int) (m : Movie),
        showMovieHandler (some i) (Except.ok m) = [Response.ok200])
    ∧ (∀ i : Int, deleteMovieHandler (some i) (Except.error ModelErr.recordNotFound)
        = [Response.notFound404])
    ∧ (∀ (i : Int) (e : ModelErr), e ≠ ModelErr.recordNotFound →
        deleteMovieHandler (some i) (Except.error e) = [Response.serverError500])
    ∧ (∀ i : Int, deleteMovieHandler (some i) (Except.ok ()) = [Response.ok200])
    ∧ (∀ (t : String) (y rt : Int) (gs : Option (List String)) (cy : Int)
        (ir : Except ModelErr Unit),
        ValidateMovie cy (buildCreateMovie t y rt gs) = false →
        createMovieHandler true ⟨some t, some y, some rt, gs⟩ cy ir
          = HandlerOutcome.responses [Response.unprocessable422])
    ∧ (∀ (t : String) (y rt : Int) (gs : Option (List String)) (cy : Int)
        (e : ModelErr),
        ValidateMovie cy (buildCreateMovie t y rt gs) = true →
        createMovieHandler true ⟨some t, some y, some rt, gs⟩ cy (Except.error e)
          = HandlerOutcome.responses [Response.serverError500])
    ∧ (∀ (i : Int) (hdr : String) (dok : Bool) (inp : Input) (cy : Int)
        (ur : Except ModelErr Int),
        updateMovieHandler ⟨some i, Except.error ModelErr.recordNotFound, hdr, dok, inp, cy, ur⟩
          = ([Response.notFound404], false, none))
    ∧ (∀ (i : Int) (e : ModelErr) (hdr : String) (dok : Bool) (inp : Input) (cy : Int)
        (ur : Except ModelErr Int), e ≠ ModelErr.recordNotFound →
        updateMovieHandler ⟨some i, Except.error e, hdr, dok, inp, cy, ur⟩
          = ([Response.serverError500], false, none))
    ∧ (∀ (i : Int) (m : Movie) (hdr : String) (dok : Bool) (inp : Input) (cy : Int)
        (ur : Except ModelErr Int), hdr ≠ "" → hdr ≠ goFormatInt m.Version 32 →
        updateMovieHandler ⟨some i, Except.ok m, hdr, dok, inp, cy, ur⟩
          = ([Response.conflict409], false, some m))
    ∧ (∀ (i : Int) (m : Movie) (inp : Input) (cy : Int) (ur : Except ModelErr Int),
        ValidateMovie cy (copyProperties inp m) = false →
        updateMovieHandler ⟨some i, Except.ok m, "", true, inp, cy, ur⟩
          = ([Response.unprocessable422], false, some (copyProperties inp m)))
    ∧ (∀ (i : Int) (m : Movie) (inp : Input) (cy : Int),
        ValidateMovie cy (copyProperties inp m) = true →
        updateMovieHandler ⟨some i, Except.ok m, "", true, inp, cy,
            Except.error ModelErr.editConflict⟩
          = ([Response.conflict409], true, some (copyProperties inp m)))
    ∧ (∀ (i : Int) (m : Movie) (inp : Input) (cy : Int) (c : Nat),
        ValidateMovie cy (copyProperties inp m) = true →
        updateMovieHandler ⟨some i, Except.ok m, "", true, inp, cy,
            Except.error (ModelErr.db c)⟩
          = ([Response.serverError500], true, some (copyProperties inp m)))
    ∧ (∀ (i : Int) (m : Movie) (inp : Input) (cy : Int) (v : Int),
        ValidateMovie cy (copyProperties inp m) = true →
        updateMovieHandler ⟨some i, Except.ok m, "", true, inp, cy, Except.ok v⟩
          = ([Response.ok200], true, some { (copyProperties inp m) with Version := v }))
    ∧ (∀ (f : Filter) (gr : Except ModelErr Unit), ValidateFilter f = false →
        listMoviesHandler f gr = [Response.unprocessable422])
    ∧ (∀ (f : Filter), ValidateFilter f = true →
        listMoviesHandler f (Except.error ModelErr.recordNotFound)
          = [Response.serverError500]) := by
  refine ⟨fun i => rfl, ?_, fun i m => rfl, fun i => rfl, ?_, fun i => rfl,
    ?_, ?_, fun i hdr dok inp cy ur => rfl, ?_, ?_, ?_, ?_, ?_, ?_, ?_, ?_⟩
  · intro i e he
    cases e with
    | recordNotFound => exact absurd rfl he
    | editConflict => rfl
    | db c => rfl
  · intro i e he
    cases e with
    | recordNotFound => exact absurd rfl he
    | editConflict => rfl
    | db c => rfl
  · intro t y rt gs cy ir hval
    simp [createMovieHandler, hval]
  · intro t y rt gs cy e hval
    simp [createMovieHandler, hval]
  · intro i e hdr dok inp cy ur he
    cases e with
    | recordNotFound => exact absurd rfl he
    | editConflict => rfl
    | db c => rfl
  · intro i m hdr dok inp cy ur h1 h2
    simp [updateMovieHandler, h1, h2]
  · intro i m inp cy ur hval
    simp [updateMovieHandler, hval]
  · intro i m inp cy hval
    simp [updateMovieHandler, hval]
  · intro i m inp cy c hval
    simp [updateMovieHandler, hval]
  · intro i m inp cy v hval
    simp [updateMovieHandler, hval]
  · intro f gr hval
    simp [listMoviesHandler, hval]
  · intro f hval
    simp [listMoviesHandler, hval]

/-- C5 witness: concrete requests exercising the 404, 422, 409, and 500
mappings, with the success status absent in each. -/
theorem handlers_map_errors_to_status_witness :
    showMovieHandler (some 1) (Except.error ModelErr.recordNotFound)
      = [Response.notFound404]
    ∧ createMovieHandler true ⟨some "", some 1942, some 102, some ["drama"]⟩ 2026
        (Except.ok ()) = HandlerOutcome.responses [Response.unprocessable422]
    ∧ updateMovieHandler ⟨some 1, Except.ok sampleMovie, "", true, emptyInput, 2026,
        Except.error ModelErr.editConflict⟩
      = ([Response.conflict409], true, some (copyProperties emptyInput sampleMovie))
    ∧ deleteMovieHandler (some 1) (Except.error (ModelErr.db 7))
      = [Response.serverError500] := by
  obtain ⟨h404, _, _, _, hdel500, _, h422, _, _, _, _, _, h409, _, _, _, _⟩ :=
    handlers_map_errors_to_status
  exact ⟨h404 1, h422 "" 1942 102 (some ["drama"]) 2026 (Except.ok ()) (by decide),
    h409 1 sampleMovie emptyInput 2026 (by decide), hdel500 1 (ModelErr.db 7) (by decide)⟩

/-- C7: the modelled filter validation (the source of `ValidateFilter` is
not under src/; modelled from the spec) accepts a filter against the
allow-list configured in `listMoviesHandler` exactly when the page is
between 1 and 10,000,000, the page size is between 1 and 100, and the
sort value is in the allow-list; in particular page=0, page_size=0,
page_size=101 and any out-of-list sort value are rejected. -/
theorem filter_validation_iff :
    (∀ (page pageSize : Int) (s : String),
      ValidateFilter ⟨page, pageSize, s, movieSortSafeList⟩ = true ↔
        (1 ≤ page ∧ page ≤ 10000000 ∧ 1 ≤ pageSize ∧ pageSize ≤ 100 ∧
          s ∈ movieSortSafeList))
    ∧ ValidateFilter ⟨0, 20, "id", movieSortSafeList⟩ = false
    ∧ ValidateFilter ⟨1, 0, "id", movieSortSafeList⟩ = false
    ∧ ValidateFilter ⟨1, 101, "id", movieSortSafeList⟩ = false
    ∧ (∀ s : String, s ∉ movieSortSafeList →
        ValidateFilter ⟨1, 20, s, movieSortSafeList⟩ = false) := by
  refine ⟨?_, by decide, by decide, by decide, ?_⟩
  · intro page pageSize s
    simp [ValidateFilter]
  · intro s hs
    simp [ValidateFilter, hs]

/-- C7 witness: the valid default filter is accepted, and the
out-of-list sort value "rating" is rejected. -/
theorem filter_validation_iff_witness :
    ValidateFilter ⟨1, 20, "id", movieSortSafeList⟩ = true
    ∧ ValidateFilter ⟨1, 20, "rating", movieSortSafeList⟩ = false :=
  ⟨(filter_validation_iff.1 1 20 "id").mpr (by decide),
   filter_validation_iff.2.2.2.2 "rating" (by decide)⟩

/-- C2: evaluation at the failing input for the version-header
comparison.  The handler compares the header against
`strconv.FormatInt(int64(movie.Version), 32)` — base 32 — so for a
fetched record with version 10, the decimal header "10" is reported as
an edit conflict (and `Update` is never called), while the base-32
string "a" lets the update proceed; the decimal representation of 10 is
"10", so plain integer equality would accept "10". -/
theorem expected_version_base32_divergence :
    goFormatInt 10 32 = "a"
    ∧ decimalRepr 10 = "10"
    ∧ updateMovieHandler ⟨some 1, Except.ok { sampleMovie with Version := 10 },
        "10", true, emptyInput, 2026, Except.ok 11⟩
      = ([Response.conflict409], false, some { sampleMovie with Version := 10 })
    ∧ updateMovieHandler ⟨some 1, Except.ok { sampleMovie with Version := 10 },
        "a", true, emptyInput, 2026, Except.ok 11⟩
      = ([Response.ok200], true, some { sampleMovie with Version := 11 }) := by
  decide

/-- C6: the `Movie` interface inside `Model` declares only the four
methods Insert, Get, Update, Delete — `GetAll` is absent from the
interface, from the SQL-backed model's declared methods, and from the
mock — yet `listMoviesHandler` invokes `GetAll` on that interface, and
the specified five-operation set differs from the declared one. -/
theorem getall_missing_from_interface :
    listMoviesHandlerStoreCall ∈ specStoreOperations
    ∧ listMoviesHandlerStoreCall ∉ modelMovieInterfaceMethods
    ∧ listMoviesHandlerStoreCall ∉ mockMovieModelMethods
    ∧ listMoviesHandlerStoreCall ∉ movieModelMethods
    ∧ modelMovieInterfaceMethods ≠ specStoreOperations := by
  decide

/-- C8: `NewModel` sets only the `DB` field, so `ContextTimeout` keeps
Go's zero value: every operation built by `NewModel` passes duration 0 —
not a positive configured timeout — to `context.WithTimeout`. -/
theorem newmodel_zero_timeout :
    ∀ db : Nat,
      (NewModel db).ContextTimeout = 0
      ∧ MovieModel.opTimeout (NewModel db) = 0
      ∧ decide (0 < MovieModel.opTimeout (NewModel db)) = false :=
  fun _ => ⟨rfl, rfl, rfl⟩

/-- C9: evaluation at the failing input for the decode-error path of
`updateMovieHandler`.  The source writes the bad-request response but
lacks a `return` there, so with a valid fetched record and a body that
fails to decode, the handler continues: it calls the store's `Update`,
mutates the in-memory record, and writes a second (success) response. -/
theorem update_handler_missing_return :
    updateMovieHandler ⟨some 1, Except.ok sampleMovie, "", false, emptyInput, 2026,
        Except.ok 2⟩
      = ([Response.badRequest400, Response.ok200], true,
         some { sampleMovie with Version := 2 }) := by
  decide

/-- C10: evaluation at the failing input for `createMovieHandler`.  A
body that decodes successfully but omits the title (or year, or runtime)
leaves the corresponding pointer field nil, and the handler dereferences
it unconditionally while building the `data.Movie`, faulting before
validation can write a 422 response. -/
theorem create_handler_nil_dereference :
    createMovieHandler true emptyInput 2026 (Except.ok ())
      = HandlerOutcome.nilPanic
    ∧ (∀ (y rt : Int) (gs : Option (List String)) (cy : Int)
        (ir : Except ModelErr Unit),
        createMovieHandler true ⟨none, some y, some rt, gs⟩ cy ir
          = HandlerOutcome.nilPanic) :=
  ⟨by decide, fun y rt gs cy ir => rfl⟩

end MovieDB
